import Mathlib

/-!
Verification of the metrics aggregation engine of a PR-review-metrics
collector and dashboard.

Timestamps are modelled as integers: milliseconds of local wall-clock time
since a reference local midnight that falls on a Monday (so day index 0 is a
Monday, matching JavaScript `getDay()` = 1 for that day).  All JavaScript
number arithmetic on metric values is modelled exactly over `ℚ`; `toFixed(k)`
followed by `parseFloat` is modelled as rounding to `k` decimal places.
JavaScript `Math.round` agrees with Mathlib `round` (both are
`⌊x + 1/2⌋`).  Fields that JavaScript sets to `null` are modelled with
`Option`; JavaScript truthiness tests on strings and numbers are translated
exactly (empty string and `0` are falsy).
-/

/-- Milliseconds per hour, as in `MS_PER_HOUR = 1000 * 60 * 60`. -/
def msPerHour : Int := 1000 * 60 * 60

/-- Milliseconds per calendar day. -/
def msPerDay : Int := 24 * msPerHour

/-- Milliseconds per week. -/
def msPerWeek : Int := 7 * msPerDay

/-- Index of the local calendar day containing instant `t` (floor division;
`msPerDay` is positive so `Int` ediv is the floor). -/
def dayIndex (t : Int) : Int := t / msPerDay

/-- Local midnight of the day containing `t`; embeds `setHours(0,0,0,0)`. -/
def startOfDay (t : Int) : Int := msPerDay * dayIndex t

/-- JavaScript `getDay()`: 0 = Sunday … 6 = Saturday.  Day index 0 of the
model is a Monday, whose `getDay()` is 1. -/
def getDay (t : Int) : Int := (dayIndex t + 1) % 7

/-- Overlap of `[s, e]` with the window `[lo, hi]`, counted only when
positive; embeds the `overlapStart`/`overlapEnd` pattern of
`calculateWorkingHours`. -/
def windowOverlap (s e lo hi : Int) : Int :=
  let oS := max s lo
  let oE := min e hi
  if oS < oE then oE - oS else 0

/-- Milliseconds removed for the day starting at `dayStart`: the whole
overlap on weekend days, otherwise the overlaps with the evening window
(18:00–24:00) and the morning window (00:00–10:00). -/
def dayRemoval (s e dayStart : Int) : Int :=
  let dayEnd := dayStart + msPerDay
  if getDay dayStart = 0 ∨ getDay dayStart = 6 then
    windowOverlap s e dayStart dayEnd
  else
    windowOverlap s e (dayStart + 18 * msPerHour) dayEnd +
      windowOverlap s e dayStart (dayStart + 10 * msPerHour)

/-- Number of iterations of the `while (currentDay < end)` loop: the days
whose start `startOfDay s + msPerDay * i` lies strictly before `e`. -/
def numDays (s e : Int) : Nat :=
  ((e - startOfDay s + (msPerDay - 1)) / msPerDay).toNat

/-- Total milliseconds accumulated in `hoursToRemove` by the day walk. -/
def msToRemove (s e : Int) : Int :=
  ((List.range (numDays s e)).map
    (fun i => dayRemoval s e (startOfDay s + msPerDay * i))).sum

/-- Embedding of `calculateWorkingHours` (identical in the collector and the
dashboard): returns 0 when `end <= start`, otherwise
`max(0, totalCalendarHours - hoursToRemove)` in hours. -/
def calculateWorkingHours (s e : Int) : ℚ :=
  if e ≤ s then 0
  else ((max 0 ((e - s) - msToRemove s e) : Int) : ℚ) / (msPerHour : ℚ)

/-! Week-shift invariance: shifting both endpoints by a whole number of
weeks leaves the result unchanged.  This lets the Friday–Monday scenario be
proved for every Friday at once. -/

theorem msPerDay_ne_zero : msPerDay ≠ 0 := by decide

theorem dayIndex_add_week (t k : Int) :
    dayIndex (t + msPerWeek * k) = dayIndex t + 7 * k := by
  have h : t + msPerWeek * k = t + (7 * k) * msPerDay := by
    unfold msPerWeek; ring
  rw [dayIndex, h, Int.add_mul_ediv_right _ _ msPerDay_ne_zero, dayIndex]

theorem startOfDay_add_week (t k : Int) :
    startOfDay (t + msPerWeek * k) = startOfDay t + msPerWeek * k := by
  rw [startOfDay, dayIndex_add_week, startOfDay, msPerWeek]
  ring

theorem getDay_add_week (t k : Int) :
    getDay (t + msPerWeek * k) = getDay t := by
  rw [getDay, dayIndex_add_week, getDay]
  have h : dayIndex t + 7 * k + 1 = (dayIndex t + 1) + k * 7 := by ring
  rw [h, Int.add_mul_emod_self]

theorem windowOverlap_shift (s e lo hi x : Int) :
    windowOverlap (s + x) (e + x) (lo + x) (hi + x) = windowOverlap s e lo hi := by
  unfold windowOverlap
  rw [max_add_add_right, min_add_add_right]
  by_cases h : max s lo < min e hi
  · rw [if_pos (by omega), if_pos h]; omega
  · rw [if_neg (by omega), if_neg h]

theorem dayRemoval_shift (s e d k : Int) :
    dayRemoval (s + msPerWeek * k) (e + msPerWeek * k) (d + msPerWeek * k) =
      dayRemoval s e d := by
  unfold dayRemoval
  rw [getDay_add_week]
  by_cases h : getDay d = 0 ∨ getDay d = 6
  · simp only [if_pos h]
    rw [show d + msPerWeek * k + msPerDay = (d + msPerDay) + msPerWeek * k from by ring]
    exact windowOverlap_shift s e d (d + msPerDay) (msPerWeek * k)
  · simp only [if_neg h]
    rw [show d + msPerWeek * k + msPerDay = (d + msPerDay) + msPerWeek * k from by ring,
      show d + msPerWeek * k + 18 * msPerHour = (d + 18 * msPerHour) + msPerWeek * k from by
        ring,
      show d + msPerWeek * k + 10 * msPerHour = (d + 10 * msPerHour) + msPerWeek * k from by
        ring,
      windowOverlap_shift, windowOverlap_shift]

theorem numDays_add_week (s e k : Int) :
    numDays (s + msPerWeek * k) (e + msPerWeek * k) = numDays s e := by
  unfold numDays
  rw [startOfDay_add_week]
  congr 2
  ring

theorem msToRemove_add_week (s e k : Int) :
    msToRemove (s + msPerWeek * k) (e + msPerWeek * k) = msToRemove s e := by
  unfold msToRemove
  rw [numDays_add_week]
  congr 1
  apply List.map_congr_left
  intro i _
  rw [startOfDay_add_week]
  have h : startOfDay s + msPerWeek * k + msPerDay * i =
      (startOfDay s + msPerDay * i) + msPerWeek * k := by ring
  rw [h, dayRemoval_shift]

theorem calculateWorkingHours_add_week (s e k : Int) :
    calculateWorkingHours (s + msPerWeek * k) (e + msPerWeek * k) =
      calculateWorkingHours s e := by
  unfold calculateWorkingHours
  rw [msToRemove_add_week]
  have h : e + msPerWeek * k ≤ s + msPerWeek * k ↔ e ≤ s := by omega
  by_cases he : e ≤ s
  · rw [if_pos (h.mpr he), if_pos he]
  · rw [if_neg (fun hc => he (h.mp hc)), if_neg he]
    congr 3
    omega

theorem calculateWorkingHours_nonneg (s e : Int) : 0 ≤ calculateWorkingHours s e := by
  unfold calculateWorkingHours
  by_cases h : e ≤ s
  · rw [if_pos h]
  · rw [if_neg h]
    apply div_nonneg
    · exact_mod_cast le_max_left 0 _
    · norm_num [msPerHour]

theorem calculateWorkingHours_of_le (s e : Int) (h : e ≤ s) :
    calculateWorkingHours s e = 0 := by
  unfold calculateWorkingHours
  rw [if_pos h]

/-- C2: for every pair of timestamps the working-hours calculator is
non-negative, and it returns exactly 0 whenever `end ≤ start`; the Lean
embedding is a total function, so no input can make it throw. -/
theorem claim_C2_working_hours_nonneg (s e : Int) :
    0 ≤ calculateWorkingHours s e ∧ (e ≤ s → calculateWorkingHours s e = 0) :=
  ⟨calculateWorkingHours_nonneg s e, calculateWorkingHours_of_le s e⟩

/-- Witness for C2 at the concrete input `(5, 3)`. -/
theorem claim_C2_working_hours_nonneg_witness :
    0 ≤ calculateWorkingHours 5 3 ∧ calculateWorkingHours 5 3 = 0 :=
  ⟨(claim_C2_working_hours_nonneg 5 3).1,
    (claim_C2_working_hours_nonneg 5 3).2 (by decide)⟩

/-- C1: for every start timestamp lying on a Friday at 16:00 local time, the
working hours to the following Monday 11:00 (67 calendar hours later) are
exactly 3: the Friday 16:00–18:00 and Monday 10:00–11:00 exposed portions. -/
theorem claim_C1_weekend_spanning_scenario (t : Int)
    (hfri : getDay t = 5) (h16 : t - startOfDay t = 16 * msPerHour) :
    calculateWorkingHours t (t + 67 * msPerHour) = 3 := by
  obtain ⟨q, hq⟩ : ∃ q : Int, dayIndex t = 7 * q + 4 := by
    have h7 : (7 : Int) * ((dayIndex t + 1) / 7) + (dayIndex t + 1) % 7 =
        dayIndex t + 1 := Int.ediv_add_emod (dayIndex t + 1) 7
    rw [getDay] at hfri
    exact ⟨(dayIndex t + 1) / 7, by omega⟩
  have ht : t = 403200000 + msPerWeek * q := by
    have hs : startOfDay t = msPerDay * (7 * q + 4) := by rw [startOfDay, hq]
    rw [msPerWeek, msPerDay, msPerHour] at *
    omega
  have hend : t + 67 * msPerHour = 644400000 + msPerWeek * q := by
    rw [ht, msPerHour, msPerWeek, msPerDay]
    ring
  rw [hend, ht, calculateWorkingHours_add_week]
  have hrem : msToRemove 403200000 644400000 = 230400000 := by decide
  unfold calculateWorkingHours
  rw [if_neg (by decide), hrem,
    show max 0 ((644400000 : Int) - 403200000 - 230400000) = 10800000 from by decide]
  norm_num [msPerHour]

/-- Witness for C1 at the concrete Friday `t = 403200000` (model day 4,
16:00 local). -/
theorem claim_C1_weekend_spanning_scenario_witness :
    calculateWorkingHours 403200000 (403200000 + 67 * msPerHour) = 3 :=
  claim_C1_weekend_spanning_scenario 403200000 (by decide) (by decide)

/-! Data model: file changes and commit records, and the rounding helpers
shared by all metric formulas.  `toFixed(k)` followed by `parseFloat` is
modelled as rounding to `k` decimal places over `ℚ`. -/

/-- Round to one decimal place, modelling `parseFloat(x.toFixed(1))`. -/
def round1 (q : ℚ) : ℚ := (round (q * 10) : ℚ) / 10

/-- Round to two decimal places, modelling `parseFloat(x.toFixed(2))`. -/
def round2 (q : ℚ) : ℚ := (round (q * 100) : ℚ) / 100

/-- A single file's diff inside a PR or a commit. -/
structure FileChange where
  filename : String
  additions : Int
  deletions : Int
  status : String
deriving DecidableEq

/-- One commit of a PR, with the files it touched. -/
structure Commit where
  sha : String
  date : Int
  files : List FileChange
deriving DecidableEq

/-- Result shape of `calculateChurnMetrics`. -/
structure ChurnMetrics where
  churnPercentage : ℚ
  fileChurnCount : Nat
deriving DecidableEq

/-- Lookup in an insertion-ordered association list; embeds `Map.get`. -/
def alLookup {β : Type} : List (String × β) → String → Option β
  | [], _ => none
  | (a, v) :: rest, k => if a = k then some v else alLookup rest k

/-- Embeds the `if (!m.has(k)) m.set(k, init); f(m.get(k))` mutation pattern
on an insertion-ordered JavaScript `Map`. -/
def alUpdate {β : Type} : List (String × β) → String → β → (β → β) → List (String × β)
  | [], k, init, f => [(k, f init)]
  | (a, v) :: rest, k, init, f =>
      if a = k then (a, f v) :: rest else (a, v) :: alUpdate rest k init f

theorem alLookup_alUpdate {β : Type} (m : List (String × β)) (k : String) (init : β)
    (f : β → β) (k' : String) :
    alLookup (alUpdate m k init f) k' =
      if k = k' then some (f ((alLookup m k).getD init)) else alLookup m k' := by
  induction m with
  | nil =>
      by_cases h : k = k' <;> simp [alUpdate, alLookup, h]
  | cons hd tl ih =>
      obtain ⟨a, v⟩ := hd
      by_cases hak : a = k
      · subst hak
        by_cases h : a = k' <;> simp [alUpdate, alLookup, h]
      · by_cases h : a = k'
        · subst h
          have hk : ¬k = a := fun hk => hak hk.symm
          simp [alUpdate, alLookup, hak, hk]
        · simp [alUpdate, alLookup, hak, h, ih]

/-- Membership in a JavaScript `Set` of numbers, modelled as a duplicate-free
list in insertion order. -/
def setAdd (s : List Nat) (i : Nat) : List Nat := if i ∈ s then s else s ++ [i]

theorem setAdd_ne_nil (s : List Nat) (i : Nat) : setAdd s i ≠ [] := by
  unfold setAdd
  by_cases h : i ∈ s
  · rw [if_pos h]
    rintro rfl
    exact absurd h (List.not_mem_nil i)
  · rw [if_neg h]
    simp

/-- Accumulator of the `commits.forEach` loop of `calculateChurnMetrics`:
the `fileSeenInCommit` map plus the two running addition counters. -/
structure ChurnState where
  fileSeen : List (String × List Nat)
  totalAdditions : Int
  reWorkAdditions : Int
deriving DecidableEq

/-- Per-file body of the churn loop: bump `totalAdditions`, count the file's
additions as rework when its `fileSeenInCommit` entry is already non-empty,
then record the current commit index. -/
def churnFileStep (idx : Nat) (st : ChurnState) (f : FileChange) : ChurnState :=
  let seen := (alLookup st.fileSeen f.filename).getD []
  { fileSeen := alUpdate st.fileSeen f.filename [] (fun s => setAdd s idx)
    totalAdditions := st.totalAdditions + f.additions
    reWorkAdditions :=
      if 0 < seen.length then st.reWorkAdditions + f.additions else st.reWorkAdditions }

/-- The full `commits.forEach((commit, idx) => ...)` traversal. -/
def churnScan (commits : List Commit) : ChurnState :=
  commits.enum.foldl (fun st p => p.2.files.foldl (churnFileStep p.1) st) ⟨[], 0, 0⟩

/-- Embedding of `calculateChurnMetrics`; the `Option` input models the
JavaScript `!commits` guard for an absent list. -/
def calculateChurnMetrics (commits : Option (List Commit)) : ChurnMetrics :=
  match commits with
  | none => ⟨0, 0⟩
  | some cs =>
      if cs.length ≤ 1 then ⟨0, 0⟩
      else
        let st := churnScan cs
        { churnPercentage :=
            if 0 < st.totalAdditions then
              round1 ((st.reWorkAdditions : ℚ) / (st.totalAdditions : ℚ) * 100)
            else 0
          fileChurnCount := (st.fileSeen.filter (fun p => 1 < p.2.length)).length }

/-- Filenames of one commit, in file order. -/
def commitFilenames (c : Commit) : List String := c.files.map (·.filename)

/-- Sum of all `additions` over every file of every commit. -/
def totalAdds (cs : List Commit) : Int :=
  (cs.map (fun c => (c.files.map (·.additions)).sum)).sum

/-- Rework additions as the claim words them: an occurrence counts exactly
when its filename was seen in an EARLIER COMMIT of the list (`seen` carries
the filenames of the commits already passed). -/
def claimRework : List String → List Commit → Int
  | _, [] => 0
  | seen, c :: cs =>
      (c.files.map (fun f => if f.filename ∈ seen then f.additions else 0)).sum +
        claimRework (seen ++ commitFilenames c) cs

/-- Rework additions of one commit's files under the amended reading: an
occurrence counts when its filename was seen at any earlier position of the
whole traversal, including earlier in the same commit. -/
def seqReworkFiles : List String → List FileChange → Int
  | _, [] => 0
  | seen, f :: fs =>
      (if f.filename ∈ seen then f.additions else 0) +
        seqReworkFiles (seen ++ [f.filename]) fs

/-- Amended rework additions over the whole commit list. -/
def seqRework : List String → List Commit → Int
  | _, [] => 0
  | seen, c :: cs => seqReworkFiles seen c.files + seqRework (seen ++ commitFilenames c) cs

theorem churnFiles_fold (idx : Nat) (files : List FileChange) :
    ∀ (st : ChurnState) (P : List String),
      (∀ n, ((alLookup st.fileSeen n).getD [] ≠ []) ↔ n ∈ P) →
      (files.foldl (churnFileStep idx) st).totalAdditions =
          st.totalAdditions + (files.map (·.additions)).sum ∧
        (files.foldl (churnFileStep idx) st).reWorkAdditions =
          st.reWorkAdditions + seqReworkFiles P files ∧
        (∀ n, ((alLookup (files.foldl (churnFileStep idx) st).fileSeen n).getD [] ≠ []) ↔
          n ∈ P ++ files.map (·.filename)) := by
  induction files with
  | nil => intro st P hInv; simpa [seqReworkFiles] using hInv
  | cons f fs ih =>
      intro st P hInv
      have hInv1 : ∀ n,
          ((alLookup (churnFileStep idx st f).fileSeen n).getD [] ≠ []) ↔
            n ∈ P ++ [f.filename] := by
        intro n
        simp only [churnFileStep, alLookup_alUpdate]
        by_cases h : f.filename = n
        · subst h
          simp [setAdd_ne_nil]
        · rw [if_neg h, hInv n]
          have hn : n ≠ f.filename := fun hn => h hn.symm
          simp [List.mem_append, hn]
      obtain ⟨h1, h2, h3⟩ := ih (churnFileStep idx st f) (P ++ [f.filename]) hInv1
      refine ⟨?_, ?_, ?_⟩
      · rw [List.foldl_cons, h1]
        simp only [churnFileStep, List.map_cons, List.sum_cons]
        ring
      · rw [List.foldl_cons, h2]
        have hseen : (0 < ((alLookup st.fileSeen f.filename).getD []).length) ↔
            f.filename ∈ P := by
          rw [← hInv f.filename]
          simp [List.length_pos]
        simp only [churnFileStep, seqReworkFiles]
        by_cases hmem : f.filename ∈ P
        · rw [if_pos (hseen.mpr hmem), if_pos hmem]; ring
        · rw [if_neg (fun hl => hmem (hseen.mp hl)), if_neg hmem]; ring
      · intro n
        rw [List.foldl_cons, h3 n]
        simp [List.mem_append]

theorem churnScan_fold (cs : List Commit) :
    ∀ (k : Nat) (st : ChurnState) (P : List String),
      (∀ n, ((alLookup st.fileSeen n).getD [] ≠ []) ↔ n ∈ P) →
      ((cs.enumFrom k).foldl (fun st p => p.2.files.foldl (churnFileStep p.1) st)
          st).totalAdditions = st.totalAdditions + totalAdds cs ∧
        ((cs.enumFrom k).foldl (fun st p => p.2.files.foldl (churnFileStep p.1) st)
          st).reWorkAdditions = st.reWorkAdditions + seqRework P cs := by
  induction cs with
  | nil => intro k st P _; simp [totalAdds, seqRework]
  | cons c cs ih =>
      intro k st P hInv
      obtain ⟨h1, h2, h3⟩ := churnFiles_fold k c.files st P hInv
      obtain ⟨h4, h5⟩ := ih (k + 1) (c.files.foldl (churnFileStep k) st)
        (P ++ c.files.map (·.filename)) h3
      constructor
      · rw [List.enumFrom_cons, List.foldl_cons, h4, h1]
        simp only [totalAdds, List.map_cons, List.sum_cons]
        ring
      · rw [List.enumFrom_cons, List.foldl_cons, h5, h2]
        simp only [seqRework, commitFilenames]
        ring

theorem churnScan_spec (cs : List Commit) :
    (churnScan cs).totalAdditions = totalAdds cs ∧
      (churnScan cs).reWorkAdditions = seqRework [] cs := by
  have h0 : ∀ n, ((alLookup ([] : List (String × List Nat)) n).getD [] ≠ []) ↔
      n ∈ ([] : List String) := by
    intro n; simp [alLookup]
  obtain ⟨h1, h2⟩ := churnScan_fold cs 0 ⟨[], 0, 0⟩ [] h0
  unfold churnScan
  rw [List.enum]
  exact ⟨by rw [h1]; simp, by rw [h2]; simp⟩

/-- Concrete input refuting C3 as stated: the second commit touches `b.ts`
twice, a filename never seen in an earlier commit. -/
def c3cex : List Commit :=
  [⟨"sha0", 0, [⟨"a.ts", 5, 0, "modified"⟩]⟩,
    ⟨"sha1", 1, [⟨"b.ts", 5, 0, "modified"⟩, ⟨"b.ts", 5, 0, "modified"⟩]⟩]

/-- C3 counterexample: on `c3cex` the code counts the repeated same-commit
occurrence of `b.ts` as rework (churn 33.3%), while the claim's
earlier-commit rule yields 0 rework, hence churn 0%. -/
theorem claim_C3_churn_counterexample :
    (calculateChurnMetrics (some c3cex)).churnPercentage = 333 / 10 ∧
      claimRework [] c3cex = 0 := by
  constructor
  · have h1 : (churnScan c3cex).totalAdditions = 15 := by decide
    have h2 : (churnScan c3cex).reWorkAdditions = 5 := by decide
    have hlen : ¬(c3cex.length ≤ 1) := by decide
    simp only [calculateChurnMetrics, if_neg hlen, h1, h2]
    rw [if_pos (by norm_num)]
    unfold round1
    rw [round_eq]
    norm_num
  · decide

/-- C3 amended: the guard cases are as claimed, and for two or more commits
the churn percentage follows the claimed formula with the rework rule read
over the whole traversal order — a file's additions count as rework exactly
when its filename was seen at an earlier position of the commit list,
whether in an earlier commit or earlier within the same commit's file list
(the code's `seen.size > 0` test cannot distinguish the two). -/
theorem claim_C3_churn_metrics_amended (commits : Option (List Commit)) :
    (commits = none → calculateChurnMetrics commits = ⟨0, 0⟩) ∧
      (∀ cs, commits = some cs → cs.length ≤ 1 →
        calculateChurnMetrics commits = ⟨0, 0⟩) ∧
      (∀ cs, commits = some cs → 1 < cs.length →
        (calculateChurnMetrics commits).churnPercentage =
          if 0 < totalAdds cs then
            round1 ((seqRework [] cs : ℚ) / (totalAdds cs : ℚ) * 100)
          else 0) := by
  refine ⟨?_, ?_, ?_⟩
  · rintro rfl; rfl
  · rintro cs rfl hlen
    simp only [calculateChurnMetrics, if_pos hlen]
  · rintro cs rfl hlen
    have hl : ¬(cs.length ≤ 1) := by omega
    simp only [calculateChurnMetrics, if_neg hl]
    obtain ⟨h1, h2⟩ := churnScan_spec cs
    simp only [h1, h2]

/-- Witness for C3's amended theorem at concrete inputs: the `none` guard,
the single-commit guard, and the two-commit formula. -/
theorem claim_C3_churn_metrics_amended_witness :
    calculateChurnMetrics none = ⟨0, 0⟩ ∧
      calculateChurnMetrics (some [⟨"s", 0, [⟨"a.ts", 3, 0, "modified"⟩]⟩]) = ⟨0, 0⟩ ∧
      (calculateChurnMetrics (some c3cex)).churnPercentage =
        if 0 < totalAdds c3cex then
          round1 ((seqRework [] c3cex : ℚ) / (totalAdds c3cex : ℚ) * 100)
        else 0 :=
  ⟨(claim_C3_churn_metrics_amended none).1 rfl,
    (claim_C3_churn_metrics_amended
      (some [⟨"s", 0, [⟨"a.ts", 3, 0, "modified"⟩]⟩])).2.1 _ rfl (by decide),
    (claim_C3_churn_metrics_amended (some c3cex)).2.2 _ rfl (by decide)⟩

/-! Change classifier: `isTestFile` and `classifyFileChanges` (the collector
and `src/scripts/collect-metrics.js` carry the identical function). -/

/-- The configured test-file patterns from `config.js`, matched as plain
substrings. -/
def testFilePatterns : List String :=
  ["*.test.*", "*.spec.*", "__tests__/", "__mocks__/", "e2e/", "tests/", "test/",
    "*.stories.*", "integration/", "fixtures/", ".test/", ".spec/"]

/-- JavaScript `String.prototype.includes`: substring containment. -/
def strIncludes (s pat : String) : Bool := decide (pat.toList <:+: s.toList)

/-- Embedding of `isTestFile`; the source tests `pattern.endsWith('/')` but
both branches perform the same `includes` check, which is preserved here. -/
def isTestFile (filename : String) : Bool :=
  testFilePatterns.any (fun pattern =>
    if pattern.endsWith "/" then strIncludes filename pattern
    else strIncludes filename pattern)

/-- Result shape of `classifyFileChanges`. -/
structure FileMetrics where
  totalAdditions : Int
  totalDeletions : Int
  prodAdditions : Int
  prodDeletions : Int
  testAdditions : Int
  testDeletions : Int
  filesChanged : Nat
  testFilesChanged : Nat
  prodFilesChanged : Nat
deriving DecidableEq

/-- Loop body of `classifyFileChanges`: accumulate totals, then place the
file in exactly one of the test or production buckets. -/
def classifyStep (r : FileMetrics) (f : FileChange) : FileMetrics :=
  let r := { r with
    totalAdditions := r.totalAdditions + f.additions
    totalDeletions := r.totalDeletions + f.deletions }
  if isTestFile f.filename then
    { r with
      testAdditions := r.testAdditions + f.additions
      testDeletions := r.testDeletions + f.deletions
      testFilesChanged := r.testFilesChanged + 1 }
  else
    { r with
      prodAdditions := r.prodAdditions + f.additions
      prodDeletions := r.prodDeletions + f.deletions
      prodFilesChanged := r.prodFilesChanged + 1 }

/-- Embedding of `classifyFileChanges`: the accumulator starts with
`filesChanged = files.length` and zeroes elsewhere, as in the source. -/
def classifyFileChanges (files : List FileChange) : FileMetrics :=
  files.foldl classifyStep
    { totalAdditions := 0, totalDeletions := 0, prodAdditions := 0, prodDeletions := 0
      testAdditions := 0, testDeletions := 0, filesChanged := files.length
      testFilesChanged := 0, prodFilesChanged := 0 }

theorem classifyStep_fields (r : FileMetrics) (f : FileChange) :
    (classifyStep r f).prodAdditions + (classifyStep r f).testAdditions =
        r.prodAdditions + r.testAdditions + f.additions ∧
      (classifyStep r f).prodDeletions + (classifyStep r f).testDeletions =
        r.prodDeletions + r.testDeletions + f.deletions ∧
      (classifyStep r f).totalAdditions = r.totalAdditions + f.additions ∧
      (classifyStep r f).totalDeletions = r.totalDeletions + f.deletions ∧
      (classifyStep r f).prodFilesChanged + (classifyStep r f).testFilesChanged =
        r.prodFilesChanged + r.testFilesChanged + 1 ∧
      (classifyStep r f).filesChanged = r.filesChanged := by
  unfold classifyStep
  cases ht : isTestFile f.filename <;> simp [ht] <;> omega

theorem classify_fold_invariant (files : List FileChange) :
    ∀ r : FileMetrics,
      (files.foldl classifyStep r).prodAdditions + (files.foldl classifyStep r).testAdditions =
          r.prodAdditions + r.testAdditions + (files.map (·.additions)).sum ∧
        (files.foldl classifyStep r).prodDeletions +
            (files.foldl classifyStep r).testDeletions =
          r.prodDeletions + r.testDeletions + (files.map (·.deletions)).sum ∧
        (files.foldl classifyStep r).totalAdditions =
          r.totalAdditions + (files.map (·.additions)).sum ∧
        (files.foldl classifyStep r).totalDeletions =
          r.totalDeletions + (files.map (·.deletions)).sum ∧
        (files.foldl classifyStep r).prodFilesChanged +
            (files.foldl classifyStep r).testFilesChanged =
          r.prodFilesChanged + r.testFilesChanged + files.length ∧
        (files.foldl classifyStep r).filesChanged = r.filesChanged := by
  induction files with
  | nil => intro r; simp
  | cons f fs ih =>
      intro r
      obtain ⟨h1, h2, h3, h4, h5, h6⟩ := ih (classifyStep r f)
      obtain ⟨g1, g2, g3, g4, g5, g6⟩ := classifyStep_fields r f
      rw [List.foldl_cons]
      refine ⟨?_, ?_, ?_, ?_, ?_, ?_⟩ <;>
        simp only [h1, h2, h3, h4, h5, h6, List.map_cons, List.sum_cons,
          List.length_cons] <;>
        omega

/-- C4: classifier completeness — for every file list, production and test
buckets partition the file count, the additions, and the deletions. -/
theorem claim_C4_classifier_completeness (files : List FileChange) :
    (classifyFileChanges files).prodFilesChanged +
        (classifyFileChanges files).testFilesChanged =
      (classifyFileChanges files).filesChanged ∧
      (classifyFileChanges files).prodAdditions + (classifyFileChanges files).testAdditions =
        (classifyFileChanges files).totalAdditions ∧
      (classifyFileChanges files).prodDeletions + (classifyFileChanges files).testDeletions =
        (classifyFileChanges files).totalDeletions := by
  obtain ⟨h1, h2, h3, h4, h5, h6⟩ := classify_fold_invariant files
    { totalAdditions := 0, totalDeletions := 0, prodAdditions := 0, prodDeletions := 0
      testAdditions := 0, testDeletions := 0, filesChanged := files.length
      testFilesChanged := 0, prodFilesChanged := 0 }
  unfold classifyFileChanges
  refine ⟨?_, ?_, ?_⟩
  · rw [h5, h6]; simp
  · rw [h1, h3]; simp
  · rw [h2, h4]; simp

/-! Review activity reducer: the `firstResponseAt` computation of
`processPR` (conversation-comment map, per-review activity timestamps, and
the global non-author minimum). -/

/-- A PR-thread conversation comment; `user` is `Option` because the source
reads `comment.user?.login`. -/
structure ConversationComment where
  user : Option String
  createdAt : Int
deriving DecidableEq

/-- An inline review comment; only its timestamp is consumed, and the source
guards on `inlineComment.created_at` being truthy. -/
structure InlineComment where
  createdAt : Option Int
deriving DecidableEq

/-- A raw review as fetched for one PR; `submittedAt` is guarded by
`if (submittedAt)` in the source. -/
structure RawReview where
  reviewer : String
  state : String
  submittedAt : Option Int
  body : String
  inlineComments : List InlineComment
deriving DecidableEq

/-- JavaScript truthiness of `comment.user?.login`: a present, non-empty
login. -/
def truthyLogin : Option String → Bool
  | none => false
  | some u => u != ""

/-- Entry of the `userConversationCommentTimestamps` map for login `u`: the
map only ever receives keys with a truthy login, and `get(u) || []` yields
that user's conversation-comment timestamps in comment order. -/
def conversationTimestampsFor (convs : List ConversationComment) (u : String) : List Int :=
  if u != "" then (convs.filter (fun c => c.user == some u)).map (·.createdAt) else []

/-- The conversation-comment timestamps pushed into `allResponseTimestamps`
from map entries whose user differs from the PR author. -/
def nonAuthorConversationTimestamps (author : String)
    (convs : List ConversationComment) : List Int :=
  (convs.filter (fun c => truthyLogin c.user && c.user != some author)).map (·.createdAt)

/-- The `reviewerActivityTimestamps` collected for one review: submission
time, inline-comment times, and the reviewer's conversation-comment times. -/
def reviewerActivityTimestamps (convs : List ConversationComment) (r : RawReview) :
    List Int :=
  (match r.submittedAt with | some t => [t] | none => []) ++
    r.inlineComments.filterMap (·.createdAt) ++
    conversationTimestampsFor convs r.reviewer

/-- Everything pushed into `allResponseTimestamps`: non-author conversation
comments plus the activity timestamps of every non-author review. -/
def allResponseTimestamps (author : String) (convs : List ConversationComment)
    (reviews : List RawReview) : List Int :=
  nonAuthorConversationTimestamps author convs ++
    (reviews.filter (fun r => r.reviewer != author)).flatMap (reviewerActivityTimestamps convs)

/-- Embedding of the `firstResponseAt` computation of `processPR`: the head
of the ascending sort of `allResponseTimestamps`, or `null` when empty. -/
def firstResponseAt (author : String) (convs : List ConversationComment)
    (reviews : List RawReview) : Option Int :=
  (List.insertionSort (· ≤ ·) (allResponseTimestamps author convs reviews)).head?

/-- The claim's qualifying-timestamp set: a conversation comment by a
participant with a login other than the author, or any activity timestamp of
a review whose reviewer is not the author. -/
def QualifyingResponse (author : String) (convs : List ConversationComment)
    (reviews : List RawReview) (t : Int) : Prop :=
  (∃ c ∈ convs, (∃ u, c.user = some u ∧ u ≠ "" ∧ u ≠ author) ∧ c.createdAt = t) ∨
    (∃ r ∈ reviews, r.reviewer ≠ author ∧ t ∈ reviewerActivityTimestamps convs r)

theorem mem_allResponseTimestamps (author : String) (convs : List ConversationComment)
    (reviews : List RawReview) (t : Int) :
    t ∈ allResponseTimestamps author convs reviews ↔
      QualifyingResponse author convs reviews t := by
  unfold allResponseTimestamps QualifyingResponse nonAuthorConversationTimestamps
  rw [List.mem_append]
  constructor
  · rintro (h | h)
    · left
      rw [List.mem_map] at h
      obtain ⟨c, hc, hct⟩ := h
      rw [List.mem_filter] at hc
      obtain ⟨hcmem, hcond⟩ := hc
      rw [Bool.and_eq_true] at hcond
      refine ⟨c, hcmem, ?_, hct⟩
      cases hu : c.user with
      | none => rw [hu] at hcond; exact absurd hcond.1 (by simp [truthyLogin])
      | some u =>
          refine ⟨u, rfl, ?_, ?_⟩
          · have := hcond.1
            rw [hu] at this
            simpa [truthyLogin] using this
          · have := hcond.2
            rw [hu] at this
            simpa using this
    · right
      rw [List.mem_flatMap] at h
      obtain ⟨r, hr, hrt⟩ := h
      rw [List.mem_filter] at hr
      exact ⟨r, hr.1, by simpa using hr.2, hrt⟩
  · rintro (⟨c, hcmem, ⟨u, hu, hne, hna⟩, hct⟩ | ⟨r, hrmem, hrne, hrt⟩)
    · left
      rw [List.mem_map]
      refine ⟨c, ?_, hct⟩
      rw [List.mem_filter]
      exact ⟨hcmem, by simp [truthyLogin, hu, hne, hna]⟩
    · right
      rw [List.mem_flatMap]
      refine ⟨r, ?_, hrt⟩
      rw [List.mem_filter]
      exact ⟨hrmem, by simpa using hrne⟩

theorem conversationTimestampsFor_cons_author (author : String)
    (c : ConversationComment) (convs : List ConversationComment) (u : String)
    (hc : c.user = some author) (hu : u ≠ author) :
    conversationTimestampsFor (c :: convs) u = conversationTimestampsFor convs u := by
  unfold conversationTimestampsFor
  by_cases h : u = ""
  · simp [h]
  · rw [if_pos (by simp [h]), if_pos (by simp [h])]
    have : (c.user == some u) = false := by
      rw [hc]
      simpa using fun he => hu he.symm
    rw [List.filter_cons, this]
    simp

/-- C5: `firstResponseAt` is exactly the minimum of the qualifying set —
`null` when the set is empty, otherwise a member below every member — and
prepending a conversation comment authored by the PR author never changes
it. -/
theorem claim_C5_first_response_minimum (author : String)
    (convs : List ConversationComment) (reviews : List RawReview) :
    (firstResponseAt author convs reviews = none ↔
        ∀ t, ¬QualifyingResponse author convs reviews t) ∧
      (∀ t, firstResponseAt author convs reviews = some t →
        QualifyingResponse author convs reviews t ∧
          ∀ s, QualifyingResponse author convs reviews s → t ≤ s) ∧
      (∀ c : ConversationComment, c.user = some author →
        firstResponseAt author (c :: convs) reviews =
          firstResponseAt author convs reviews) := by
  have hperm := List.perm_insertionSort (· ≤ ·) (allResponseTimestamps author convs reviews)
  have hsort := List.sorted_insertionSort (· ≤ ·) (allResponseTimestamps author convs reviews)
  refine ⟨?_, ?_, ?_⟩
  · unfold firstResponseAt
    rw [List.head?_eq_none_iff]
    constructor
    · intro hnil t hq
      have ht : t ∈ allResponseTimestamps author convs reviews :=
        (mem_allResponseTimestamps author convs reviews t).mpr hq
      rw [← hperm.mem_iff, hnil] at ht
      exact absurd ht (List.not_mem_nil t)
    · intro hq
      rw [List.eq_nil_iff_forall_not_mem]
      intro t ht
      rw [hperm.mem_iff, mem_allResponseTimestamps] at ht
      exact hq t ht
  · intro t ht
    unfold firstResponseAt at ht
    cases hs : List.insertionSort (· ≤ ·) (allResponseTimestamps author convs reviews) with
    | nil => rw [hs] at ht; simp at ht
    | cons a tl =>
        rw [hs] at ht
        simp only [List.head?_cons, Option.some.injEq] at ht
        subst ht
        constructor
        · rw [← mem_allResponseTimestamps, ← hperm.mem_iff, hs]
          exact List.mem_cons_self a tl
        · intro s hsq
          have hmem : s ∈ a :: tl := by
            rw [← hs, hperm.mem_iff, mem_allResponseTimestamps]
            exact hsq
          rcases List.mem_cons.mp hmem with h | h
          · exact le_of_eq h.symm
          · have hst := hs ▸ hsort
            exact (List.sorted_cons.mp hst).1 s h
  · intro c hc
    unfold firstResponseAt
    have heq : allResponseTimestamps author (c :: convs) reviews =
        allResponseTimestamps author convs reviews := by
      unfold allResponseTimestamps nonAuthorConversationTimestamps
      congr 1
      · rw [List.filter_cons]
        have : (truthyLogin c.user && c.user != some author) = false := by
          rw [hc]
          simp
        rw [this]
        simp
      · have hbind : ∀ l : List RawReview,
            (∀ r ∈ l, r.reviewer ≠ author) →
            l.flatMap (reviewerActivityTimestamps (c :: convs)) =
              l.flatMap (reviewerActivityTimestamps convs) := by
          intro l hl
          induction l with
          | nil => rfl
          | cons r rs ih =>
              rw [List.flatMap_cons, List.flatMap_cons,
                ih (fun x hx => hl x (List.mem_cons_of_mem r hx))]
              congr 1
              unfold reviewerActivityTimestamps
              rw [conversationTimestampsFor_cons_author author c convs r.reviewer hc
                (hl r (List.mem_cons_self r rs))]
        apply hbind
        intro r hr
        rw [List.mem_filter] at hr
        simpa using hr.2
    rw [heq]

/-- Witness for C5 at a concrete PR: author `alice`, one conversation
comment by `bob` at time 5, no reviews; and the author-comment invariance at
an `alice` comment at time 1. -/
theorem claim_C5_first_response_minimum_witness :
    (QualifyingResponse "alice" [⟨some "bob", 5⟩] [] 5 ∧
        ∀ s, QualifyingResponse "alice" [⟨some "bob", 5⟩] [] s → 5 ≤ s) ∧
      firstResponseAt "alice" (⟨some "alice", 1⟩ :: [⟨some "bob", 5⟩]) [] =
        firstResponseAt "alice" [⟨some "bob", 5⟩] [] :=
  ⟨(claim_C5_first_response_minimum "alice" [⟨some "bob", 5⟩] []).2.1 5 (by decide),
    (claim_C5_first_response_minimum "alice" [⟨some "bob", 5⟩] []).2.2
      ⟨some "alice", 1⟩ rfl⟩

/-! Aggregators.  Enriched PR records as consumed by
`calculateReviewerSummary`, `calculateAuthorSummary`, `calculateTeamSummary`
and the dashboard's `computeTeamSummaryFallback`. -/

/-- An enriched review inside an enriched PR record. -/
structure EnrichedReview where
  reviewer : String
  state : String
  submittedAt : Option Int
  firstActivityAt : Option Int
  hasComments : Bool
  inlineCommentCount : Int
  conversationCommentCount : Int
  body : String
deriving DecidableEq

/-- An enriched PR record.  `commitCount`, `churnPercentage` and
`fileChurnCount` are `Option` because older stored data files may lack them
(the TypeScript type marks them optional); `error` is the partial-failure
marker. -/
structure PRDetail where
  repo : String
  number : Int
  title : String
  author : String
  createdAt : Int
  mergedAt : Int
  totalAdditions : Int
  totalDeletions : Int
  prodAdditions : Int
  prodDeletions : Int
  testAdditions : Int
  testDeletions : Int
  filesChanged : Nat
  prodFilesChanged : Nat
  testFilesChanged : Nat
  iterationCount : Int
  reviews : List EnrichedReview
  firstResponseAt : Option Int
  commitCount : Option Int
  churnPercentage : Option ℚ
  fileChurnCount : Option Int
  error : Option String
deriving DecidableEq

/-- JavaScript truthiness of an optional string field such as `pr.error`:
present and non-empty. -/
def jsTruthyStr : Option String → Bool
  | none => false
  | some s => s != ""

/-- JavaScript `pr.commitCount || 1`: absent or zero becomes 1. -/
def jsOr1 : Option Int → Int
  | none => 1
  | some c => if c = 0 then 1 else c

/-- JavaScript `pr.churnPercentage || 0` over an optional number. -/
def jsOrQ0 : Option ℚ → ℚ
  | none => 0
  | some c => c

/-- JavaScript `pr.fileChurnCount || 0` over an optional integer. -/
def jsOrI0 : Option Int → Int
  | none => 0
  | some c => c

/-- The `avg` helper of the source: 0 on an empty sample. -/
def avgQ (l : List ℚ) : ℚ := if 0 < l.length then l.sum / (l.length : ℚ) else 0

/-- The `avg` helper applied to integer samples. -/
def avgI (l : List Int) : ℚ := if 0 < l.length then ((l.sum : Int) : ℚ) / (l.length : ℚ) else 0

/-- Ascending sort, as in `[...arr].sort((a, b) => a - b)`. -/
def sortedAsc (l : List ℚ) : List ℚ := List.insertionSort (· ≤ ·) l

/-- The `median` helper: `sorted[Math.floor(n / 2)]`, `null` on empty. -/
def medianQ (l : List ℚ) : Option ℚ :=
  if l.length = 0 then none else (sortedAsc l)[l.length / 2]?

/-- The `percentile` helper: `sorted[Math.floor(n * p)]`, `null` on empty. -/
def percentileQ (l : List ℚ) (p : ℚ) : Option ℚ :=
  if l.length = 0 then none else (sortedAsc l)[(⌊(l.length : ℚ) * p⌋).toNat]?

/-- Per-reviewer accumulator of `calculateReviewerSummary`. -/
structure RStats where
  reviewer : String
  totalReviews : Nat
  approvals : Nat
  changesRequested : Nat
  commentOnlyReviews : Nat
  noCommentApprovals : Nat
  totalInlineComments : Int
  totalConversationComments : Int
  responseTimes : List ℚ
  prSizesReviewed : List Int
  prProdLinesReviewed : List Int
  prTestLinesReviewed : List Int
  iterationsPerPr : List Int
  prsReviewed : List Int
  prsByRepo : List (String × Int)
  reviewedPrCloseTimes : List ℚ
deriving DecidableEq

/-- Fresh accumulator, as first inserted into the `reviewerStats` map. -/
def initRStats (reviewer : String) : RStats :=
  { reviewer := reviewer, totalReviews := 0, approvals := 0, changesRequested := 0
    commentOnlyReviews := 0, noCommentApprovals := 0, totalInlineComments := 0
    totalConversationComments := 0, responseTimes := [], prSizesReviewed := []
    prProdLinesReviewed := [], prTestLinesReviewed := [], iterationsPerPr := []
    prsReviewed := [], prsByRepo := [], reviewedPrCloseTimes := [] }

/-- Body of the per-review loop of `calculateReviewerSummary`: state
counters, comment totals, response-time sample, then the once-per-`pr.number`
PR-level samples. -/
def rStep (pr : PRDetail) (rv : EnrichedReview) (s : RStats) : RStats :=
  let s := { s with totalReviews := s.totalReviews + 1 }
  let s :=
    if rv.state = "APPROVED" then
      let s := { s with approvals := s.approvals + 1 }
      if rv.hasComments then s
      else { s with noCommentApprovals := s.noCommentApprovals + 1 }
    else if rv.state = "CHANGES_REQUESTED" then
      { s with changesRequested := s.changesRequested + 1 }
    else if rv.state = "COMMENTED" then
      { s with commentOnlyReviews := s.commentOnlyReviews + 1 }
    else s
  let s := { s with
    totalInlineComments := s.totalInlineComments + rv.inlineCommentCount
    totalConversationComments := s.totalConversationComments + rv.conversationCommentCount }
  let s :=
    match rv.firstActivityAt with
    | some t =>
        let rh := calculateWorkingHours pr.createdAt t
        if 0 ≤ rh then { s with responseTimes := s.responseTimes ++ [rh] } else s
    | none => s
  if s.prsReviewed.contains pr.number then s
  else
    { s with
      prsReviewed := s.prsReviewed ++ [pr.number]
      prSizesReviewed := s.prSizesReviewed ++ [pr.totalAdditions + pr.totalDeletions]
      prProdLinesReviewed := s.prProdLinesReviewed ++ [pr.prodAdditions + pr.prodDeletions]
      prTestLinesReviewed := s.prTestLinesReviewed ++ [pr.testAdditions + pr.testDeletions]
      iterationsPerPr := s.iterationsPerPr ++ [pr.iterationCount]
      reviewedPrCloseTimes :=
        s.reviewedPrCloseTimes ++ [calculateWorkingHours pr.createdAt pr.mergedAt]
      prsByRepo := alUpdate s.prsByRepo pr.repo 0 (· + 1) }

/-- The accumulation phase of `calculateReviewerSummary`: skip records with
a truthy `error`, then fold every review into the reviewer's accumulator. -/
def reviewerStatsOf (prs : List PRDetail) : List (String × RStats) :=
  (prs.filter (fun p => !jsTruthyStr p.error)).foldl
    (fun m pr => pr.reviews.foldl
      (fun m rv => alUpdate m rv.reviewer (initRStats rv.reviewer) (rStep pr rv)) m)
    []

/-- One output row of `calculateReviewerSummary`; numeric strings are
modelled by their rounded values and `null` by `none`. -/
structure ReviewerSummaryRow where
  reviewer : String
  totalReviews : Nat
  prsReviewedCount : Nat
  approvals : Nat
  changesRequested : Nat
  commentOnlyReviews : Nat
  noCommentApprovals : Nat
  noCommentApprovalPct : ℚ
  totalInlineComments : Int
  totalConversationComments : Int
  medianResponseHours : Option ℚ
  p90ResponseHours : Option ℚ
  fastestResponseHours : Option ℚ
  avgPrSizeReviewed : Int
  avgPrProdLinesReviewed : Int
  avgPrTestLinesReviewed : Int
  avgIterationsPerPr : ℚ
  avgReviewedPrCloseTime : Option ℚ
  prsWithMultipleRounds : Nat
  prsByRepo : List (String × Int)
deriving DecidableEq

/-- Finalisation of one reviewer's accumulator into an output row.  The
source renders `medianResponse ? medianResponse.toFixed(2) : null` (and the
same pattern for the P90, fastest and close-time averages), so a value of
exactly 0 — falsy in JavaScript — renders as `null`. -/
def reviewerRowOf (stats : RStats) : ReviewerSummaryRow :=
  let medianResponse := medianQ stats.responseTimes
  let p90Response := percentileQ stats.responseTimes (9 / 10)
  let fastestResponse :=
    if 0 < stats.responseTimes.length then stats.responseTimes.min? else none
  let avgRevClose := avgQ stats.reviewedPrCloseTimes
  { reviewer := stats.reviewer
    totalReviews := stats.totalReviews
    prsReviewedCount := stats.prsReviewed.length
    approvals := stats.approvals
    changesRequested := stats.changesRequested
    commentOnlyReviews := stats.commentOnlyReviews
    noCommentApprovals := stats.noCommentApprovals
    noCommentApprovalPct :=
      if 0 < stats.approvals then
        round1 ((stats.noCommentApprovals : ℚ) / (stats.approvals : ℚ) * 100)
      else 0
    totalInlineComments := stats.totalInlineComments
    totalConversationComments := stats.totalConversationComments
    medianResponseHours :=
      match medianResponse with
      | some m => if m = 0 then none else some (round2 m)
      | none => none
    p90ResponseHours :=
      match p90Response with
      | some m => if m = 0 then none else some (round2 m)
      | none => none
    fastestResponseHours :=
      match fastestResponse with
      | some m => if m = 0 then none else some (round2 m)
      | none => none
    avgPrSizeReviewed := round (avgI stats.prSizesReviewed)
    avgPrProdLinesReviewed := round (avgI stats.prProdLinesReviewed)
    avgPrTestLinesReviewed := round (avgI stats.prTestLinesReviewed)
    avgIterationsPerPr := round2 (avgI stats.iterationsPerPr)
    avgReviewedPrCloseTime := if avgRevClose = 0 then none else some (round2 avgRevClose)
    prsWithMultipleRounds := (stats.iterationsPerPr.filter (fun i => 1 < i)).length
    prsByRepo := stats.prsByRepo }

/-- Embedding of `calculateReviewerSummary`: accumulate, finalise each row,
sort descending by `totalReviews`. -/
def calculateReviewerSummary (prs : List PRDetail) : List ReviewerSummaryRow :=
  List.insertionSort (fun a b => b.totalReviews ≤ a.totalReviews)
    ((reviewerStatsOf prs).map (fun p => reviewerRowOf p.2))

/-- Concrete failing input for C6: two PRs that are distinct under the
`(repo, number)` identity but share the bare number 1, both reviewed by
`carol`. -/
def c6prA : PRDetail :=
  { repo := "repoA"
    number := 1
    title := "t1"
    author := "alice"
    createdAt := 0
    mergedAt := 0
    totalAdditions := 10
    totalDeletions := 0
    prodAdditions := 10
    prodDeletions := 0
    testAdditions := 0
    testDeletions := 0
    filesChanged := 1
    prodFilesChanged := 1
    testFilesChanged := 0
    iterationCount := 1
    reviews := [{ reviewer := "carol"
                  state := "APPROVED"
                  submittedAt := some 0
                  firstActivityAt := none
                  hasComments := false
                  inlineCommentCount := 0
                  conversationCommentCount := 0
                  body := "" }]
    firstResponseAt := none
    commitCount := some 1
    churnPercentage := some 0
    fileChurnCount := some 0
    error := none }

/-- Second PR of the C6 failing input: different repo, same number. -/
def c6prB : PRDetail :=
  { c6prA with
    repo := "repoB"
    author := "bob"
    totalAdditions := 20
    prodAdditions := 20 }

/-- C6: the once-per-PR dedup of PR-level samples keys on `pr.number` alone,
not on the `(repo, number)` identity.  For the batch `[c6prA, c6prB]` —
two distinct PRs reviewed by `carol` — her sample lists hold ONE entry
(only PR size 10 from `repoA`), where the claim requires one sample per
distinct PR, i.e. two. -/
theorem claim_C6_pr_identity_dedup_bug :
    c6prA.repo ≠ c6prB.repo ∧ c6prA.number = c6prB.number ∧
      (reviewerStatsOf [c6prA, c6prB]).map
          (fun p => (p.1, p.2.prsReviewed, p.2.prSizesReviewed, p.2.iterationsPerPr)) =
        [("carol", [1], [10], [1])] := by
  decide

/-- C10: whenever a reviewer's computed median, P90, fastest response time,
or average reviewed-PR close time is exactly 0 working hours, the
corresponding output field is `null` rather than `"0.00"`, because the
source guards each with a JavaScript truthiness test. -/
theorem claim_C10_zero_working_hours_render_null (stats : RStats) :
    (medianQ stats.responseTimes = some 0 →
        (reviewerRowOf stats).medianResponseHours = none) ∧
      (percentileQ stats.responseTimes (9 / 10) = some 0 →
        (reviewerRowOf stats).p90ResponseHours = none) ∧
      (stats.responseTimes.min? = some 0 →
        (reviewerRowOf stats).fastestResponseHours = none) ∧
      (avgQ stats.reviewedPrCloseTimes = 0 →
        (reviewerRowOf stats).avgReviewedPrCloseTime = none) := by
  refine ⟨?_, ?_, ?_, ?_⟩
  · intro h
    simp [reviewerRowOf, h]
  · intro h
    simp [reviewerRowOf, h]
  · intro h
    have hne : 0 < stats.responseTimes.length := by
      cases hl : stats.responseTimes with
      | nil => rw [hl] at h; simp at h
      | cons a l => simp [hl]
    simp [reviewerRowOf, h, hne]
  · intro h
    simp [reviewerRowOf, h]

/-- Concrete accumulator for the C10 witness: one zero response time and one
zero close time. -/
def c10stats : RStats :=
  { initRStats "dave" with responseTimes := [0], reviewedPrCloseTimes := [0] }

/-- Witness for C10 at `c10stats`: all four output fields are `null`. -/
theorem claim_C10_zero_working_hours_render_null_witness :
    (reviewerRowOf c10stats).medianResponseHours = none ∧
      (reviewerRowOf c10stats).p90ResponseHours = none ∧
      (reviewerRowOf c10stats).fastestResponseHours = none ∧
      (reviewerRowOf c10stats).avgReviewedPrCloseTime = none :=
  ⟨(claim_C10_zero_working_hours_render_null c10stats).1 (by decide),
    (claim_C10_zero_working_hours_render_null c10stats).2.1 (by
      show percentileQ [0] (9 / 10) = some 0
      unfold percentileQ sortedAsc
      norm_num),
    (claim_C10_zero_working_hours_render_null c10stats).2.2.1 (by decide),
    (claim_C10_zero_working_hours_render_null c10stats).2.2.2 (by
      show avgQ [0] = 0
      unfold avgQ
      norm_num)⟩

/-- Per-author accumulator of `calculateAuthorSummary`. -/
structure AStats where
  author : String
  prsAuthored : Nat
  prSizes : List Int
  prodLines : List Int
  testLines : List Int
  reviewTimes : List ℚ
  closeTimes : List ℚ
  reviewCounts : List Int
  iterations : List Int
  commitCounts : List Int
  churnPercentages : List ℚ
  fileChurnCounts : List Int
  prsByRepo : List (String × Int)
deriving DecidableEq

/-- Fresh author accumulator. -/
def initAStats (author : String) : AStats :=
  { author := author, prsAuthored := 0, prSizes := [], prodLines := [], testLines := []
    reviewTimes := [], closeTimes := [], reviewCounts := [], iterations := []
    commitCounts := [], churnPercentages := [], fileChurnCounts := [], prsByRepo := [] }

/-- Body of the per-PR loop of `calculateAuthorSummary`. -/
def aStep (st : AStats) (pr : PRDetail) : AStats :=
  let st := { st with
    prsAuthored := st.prsAuthored + 1
    prSizes := st.prSizes ++ [pr.totalAdditions + pr.totalDeletions]
    prodLines := st.prodLines ++ [pr.prodAdditions + pr.prodDeletions]
    testLines := st.testLines ++ [pr.testAdditions + pr.testDeletions]
    reviewCounts := st.reviewCounts ++ [(pr.reviews.length : Int)]
    iterations := st.iterations ++ [pr.iterationCount]
    commitCounts := st.commitCounts ++ [jsOr1 pr.commitCount]
    churnPercentages := st.churnPercentages ++ [jsOrQ0 pr.churnPercentage]
    fileChurnCounts := st.fileChurnCounts ++ [jsOrI0 pr.fileChurnCount] }
  let st :=
    match pr.firstResponseAt with
    | some t =>
        let frt := calculateWorkingHours pr.createdAt t
        if 0 ≤ frt then { st with reviewTimes := st.reviewTimes ++ [frt] } else st
    | none => st
  { st with
    closeTimes := st.closeTimes ++ [calculateWorkingHours pr.createdAt pr.mergedAt]
    prsByRepo := alUpdate st.prsByRepo pr.repo 0 (· + 1) }

/-- One output row of `calculateAuthorSummary`. -/
structure AuthorSummaryRow where
  author : String
  prsAuthored : Nat
  authoredPrAvgSize : Int
  authoredPrAvgProdLines : Int
  authoredPrAvgTestLines : Int
  authoredPrAvgReviewTime : Option ℚ
  authoredPrAvgCloseTime : ℚ
  authoredPrAvgReviewCount : ℚ
  authoredPrAvgIterations : ℚ
  authoredPrAvgCommits : ℚ
  authoredPrAvgChurnPct : ℚ
  authoredPrAvgFileChurn : ℚ
  prsByRepo : List (String × Int)
deriving DecidableEq

/-- Finalisation of one author's accumulator into an output row. -/
def authorRowOf (st : AStats) : AuthorSummaryRow :=
  let avgReviewTime :=
    if 0 < st.reviewTimes.length then some (avgQ st.reviewTimes) else none
  { author := st.author
    prsAuthored := st.prsAuthored
    authoredPrAvgSize := round (avgI st.prSizes)
    authoredPrAvgProdLines := round (avgI st.prodLines)
    authoredPrAvgTestLines := round (avgI st.testLines)
    authoredPrAvgReviewTime :=
      match avgReviewTime with
      | some v => if v = 0 then none else some (round2 v)
      | none => none
    authoredPrAvgCloseTime := round2 (avgQ st.closeTimes)
    authoredPrAvgReviewCount := round2 (avgI st.reviewCounts)
    authoredPrAvgIterations := round2 (avgI st.iterations)
    authoredPrAvgCommits := round2 (avgI st.commitCounts)
    authoredPrAvgChurnPct := round1 (avgQ st.churnPercentages)
    authoredPrAvgFileChurn := round1 (avgI st.fileChurnCounts)
    prsByRepo := st.prsByRepo }

/-- Embedding of `calculateAuthorSummary`: skip truthy-`error` records,
accumulate per author, finalise, sort descending by `prsAuthored`. -/
def calculateAuthorSummary (prs : List PRDetail) : List AuthorSummaryRow :=
  List.insertionSort (fun a b => b.prsAuthored ≤ a.prsAuthored)
    (((prs.filter (fun p => !jsTruthyStr p.error)).foldl
        (fun m pr => alUpdate m pr.author (initAStats pr.author) (fun st => aStep st pr))
        []).map (fun p => authorRowOf p.2))

/-- The `authored` half of a team summary. -/
structure TeamAuthored where
  totalPRs : Nat
  totalDevelopers : Nat
  avgPrSize : Int
  avgProdLines : Int
  avgTestLines : Int
  avgCloseTime : Option ℚ
  avgIterations : ℚ
  avgChurnPct : ℚ
  avgFileChurn : ℚ
  avgCommitsPerPr : ℚ
deriving DecidableEq

/-- The `reviewed` half of a team summary. -/
structure TeamReviewed where
  totalReviews : Nat
  totalReviewers : Nat
  avgPrSizeReviewed : Int
  avgProdLinesReviewed : Int
  avgTestLinesReviewed : Int
  medianResponseTime : Option ℚ
  overallNoCommentPct : ℚ
  avgInlineComments : ℚ
  avgIterationsPerPr : ℚ
deriving DecidableEq

/-- The team summary produced by both pipelines. -/
structure TeamSummary where
  authored : TeamAuthored
  reviewed : TeamReviewed
deriving DecidableEq

attribute [ext] TeamAuthored TeamReviewed TeamSummary

/-- The `weightedAvg` helper shared by both team-summary implementations:
`sum(value*weight)/sum(weight)`, 0 on zero total weight. -/
def weightedAvgRows (items : List ReviewerSummaryRow) (value : ReviewerSummaryRow → ℚ)
    (weight : ReviewerSummaryRow → ℚ) : ℚ :=
  let totalWeight := (items.map weight).sum
  let weightedSum := (items.map (fun i => value i * weight i)).sum
  if 0 < totalWeight then weightedSum / totalWeight else 0

/-- Accumulator of the review-counting loop shared by both team-summary
implementations. -/
structure ReviewTotals where
  totalReviews : Nat
  totalApprovals : Nat
  totalNoCommentApprovals : Nat
  totalInlineComments : Int
deriving DecidableEq

/-- One review's contribution to the team review totals. -/
def reviewTotalsStep (acc : ReviewTotals) (rv : EnrichedReview) : ReviewTotals :=
  let acc := { acc with
    totalReviews := acc.totalReviews + 1
    totalInlineComments := acc.totalInlineComments + rv.inlineCommentCount }
  if rv.state = "APPROVED" then
    let acc := { acc with totalApprovals := acc.totalApprovals + 1 }
    if rv.hasComments then acc
    else { acc with totalNoCommentApprovals := acc.totalNoCommentApprovals + 1 }
  else acc

/-- The `for (pr of validPRs) for (review of pr.reviews)` counting loop. -/
def teamReviewTotals (validPRs : List PRDetail) : ReviewTotals :=
  validPRs.foldl (fun acc pr => pr.reviews.foldl reviewTotalsStep acc) ⟨0, 0, 0, 0⟩

/-- The per-PR first-response working hours pool, before the sign filter on
which the two team-summary implementations disagree. -/
def teamResponseTimesRaw (validPRs : List PRDetail) : List ℚ :=
  (validPRs.filter (fun p => p.firstResponseAt.isSome)).map
    (fun p => calculateWorkingHours p.createdAt (p.firstResponseAt.getD 0))

/-- Embedding of the collector-side `calculateTeamSummary`.  Response times
are filtered with `t > 0`. -/
def calculateTeamSummary (authorSummary : List AuthorSummaryRow)
    (reviewerSummary : List ReviewerSummaryRow) (prDetails : List PRDetail) : TeamSummary :=
  let validPRs := prDetails.filter (fun p => !jsTruthyStr p.error)
  let prSizes := validPRs.map (fun p => p.totalAdditions + p.totalDeletions)
  let prodLines := validPRs.map (fun p => p.prodAdditions + p.prodDeletions)
  let testLines := validPRs.map (fun p => p.testAdditions + p.testDeletions)
  let iterations := validPRs.map (fun p => p.iterationCount)
  let closeTimes := (validPRs.map
      (fun p => calculateWorkingHours p.createdAt p.mergedAt)).filter (fun h => 0 < h)
  let churnPercentages := (validPRs.filter (fun p => p.churnPercentage.isSome)).map
      (fun p => jsOrQ0 p.churnPercentage)
  let fileChurnCounts := (validPRs.filter (fun p => p.fileChurnCount.isSome)).map
      (fun p => jsOrI0 p.fileChurnCount)
  let commitCounts := validPRs.map (fun p => jsOr1 p.commitCount)
  let allResponseTimes := (teamResponseTimesRaw validPRs).filter (fun t => 0 < t)
  let totals := teamReviewTotals validPRs
  { authored := {
      totalPRs := validPRs.length
      totalDevelopers := authorSummary.length
      avgPrSize := round (avgI prSizes)
      avgProdLines := round (avgI prodLines)
      avgTestLines := round (avgI testLines)
      avgCloseTime := if 0 < closeTimes.length then some (round2 (avgQ closeTimes)) else none
      avgIterations := round2 (avgI iterations)
      avgChurnPct :=
        if 0 < churnPercentages.length then round1 (avgQ churnPercentages) else 0
      avgFileChurn :=
        if 0 < fileChurnCounts.length then round1 (avgI fileChurnCounts) else 0
      avgCommitsPerPr := round2 (avgI commitCounts) }
    reviewed := {
      totalReviews := totals.totalReviews
      totalReviewers := reviewerSummary.length
      avgPrSizeReviewed := round (weightedAvgRows reviewerSummary
        (fun i => (i.avgPrSizeReviewed : ℚ)) (fun i => (i.prsReviewedCount : ℚ)))
      avgProdLinesReviewed := round (weightedAvgRows reviewerSummary
        (fun i => (i.avgPrProdLinesReviewed : ℚ)) (fun i => (i.prsReviewedCount : ℚ)))
      avgTestLinesReviewed := round (weightedAvgRows reviewerSummary
        (fun i => (i.avgPrTestLinesReviewed : ℚ)) (fun i => (i.prsReviewedCount : ℚ)))
      medianResponseTime := (medianQ allResponseTimes).map round2
      overallNoCommentPct :=
        if 0 < totals.totalApprovals then
          round1 ((totals.totalNoCommentApprovals : ℚ) / (totals.totalApprovals : ℚ) * 100)
        else 0
      avgInlineComments :=
        if 0 < totals.totalReviews then
          round2 ((totals.totalInlineComments : ℚ) / (totals.totalReviews : ℚ))
        else 0
      avgIterationsPerPr := round2 (avgI iterations) } }

/-- The dashboard's stored-data shape consumed by the fallback. -/
structure MetricsData where
  summary : List ReviewerSummaryRow
  authorSummary : List AuthorSummaryRow
  details : List PRDetail

/-- Embedding of the dashboard-side `computeTeamSummaryFallback`.  Identical
to `calculateTeamSummary` except that response times are filtered with
`h >= 0` instead of `t > 0`. -/
def computeTeamSummaryFallback (data : MetricsData) : TeamSummary :=
  let validPRs := data.details.filter (fun p => !jsTruthyStr p.error)
  let prSizes := validPRs.map (fun p => p.totalAdditions + p.totalDeletions)
  let prodLines := validPRs.map (fun p => p.prodAdditions + p.prodDeletions)
  let testLines := validPRs.map (fun p => p.testAdditions + p.testDeletions)
  let iterations := validPRs.map (fun p => p.iterationCount)
  let closeTimes := (validPRs.map
      (fun p => calculateWorkingHours p.createdAt p.mergedAt)).filter (fun h => 0 < h)
  let churnPercentages := (validPRs.filter (fun p => p.churnPercentage.isSome)).map
      (fun p => jsOrQ0 p.churnPercentage)
  let fileChurnCounts := (validPRs.filter (fun p => p.fileChurnCount.isSome)).map
      (fun p => jsOrI0 p.fileChurnCount)
  let commitCounts := validPRs.map (fun p => jsOr1 p.commitCount)
  let allResponseTimes := (teamResponseTimesRaw validPRs).filter (fun h => 0 ≤ h)
  let totals := teamReviewTotals validPRs
  { authored := {
      totalPRs := validPRs.length
      totalDevelopers := data.authorSummary.length
      avgPrSize := round (avgI prSizes)
      avgProdLines := round (avgI prodLines)
      avgTestLines := round (avgI testLines)
      avgCloseTime := if 0 < closeTimes.length then some (round2 (avgQ closeTimes)) else none
      avgIterations := round2 (avgI iterations)
      avgChurnPct :=
        if 0 < churnPercentages.length then round1 (avgQ churnPercentages) else 0
      avgFileChurn :=
        if 0 < fileChurnCounts.length then round1 (avgI fileChurnCounts) else 0
      avgCommitsPerPr := round2 (avgI commitCounts) }
    reviewed := {
      totalReviews := totals.totalReviews
      totalReviewers := data.summary.length
      avgPrSizeReviewed := round (weightedAvgRows data.summary
        (fun i => (i.avgPrSizeReviewed : ℚ)) (fun i => (i.prsReviewedCount : ℚ)))
      avgProdLinesReviewed := round (weightedAvgRows data.summary
        (fun i => (i.avgPrProdLinesReviewed : ℚ)) (fun i => (i.prsReviewedCount : ℚ)))
      avgTestLinesReviewed := round (weightedAvgRows data.summary
        (fun i => (i.avgPrTestLinesReviewed : ℚ)) (fun i => (i.prsReviewedCount : ℚ)))
      medianResponseTime := (medianQ allResponseTimes).map round2
      overallNoCommentPct :=
        if 0 < totals.totalApprovals then
          round1 ((totals.totalNoCommentApprovals : ℚ) / (totals.totalApprovals : ℚ) * 100)
        else 0
      avgInlineComments :=
        if 0 < totals.totalReviews then
          round2 ((totals.totalInlineComments : ℚ) / (totals.totalReviews : ℚ))
        else 0
      avgIterationsPerPr := round2 (avgI iterations) } }

/-- Helper: the error filter is idempotent, so summaries of an already
filtered batch coincide with summaries of the raw batch. -/
theorem filter_error_idem (prs : List PRDetail) :
    (prs.filter (fun p => !jsTruthyStr p.error)).filter (fun p => !jsTruthyStr p.error) =
      prs.filter (fun p => !jsTruthyStr p.error) := by
  rw [List.filter_filter]
  simp

/-- Concrete counterexample record for C7: it carries an `error` field whose
value is the empty string, which is falsy in JavaScript. -/
def c7pr : PRDetail := { c6prA with error := some "" }

/-- C7 counterexample: `c7pr` carries an `error` field, yet it contributes a
review row to the reviewer summary and a PR to the team summary, because the
aggregators skip on the truthiness of `pr.error` and the empty string is
falsy. -/
theorem claim_C7_error_exclusion_counterexample :
    c7pr.error = some "" ∧
      (calculateReviewerSummary [c7pr]).map (fun row => (row.reviewer, row.totalReviews)) =
        [("carol", 1)] ∧
      (calculateTeamSummary [] [] [c7pr]).authored.totalPRs = 1 := by
  refine ⟨rfl, by decide, by decide⟩

/-- C7 amended: a record whose `error` is present and NON-EMPTY contributes
to no reviewer, author, or team summary counter — each aggregator's output
on any batch equals its output on the batch with truthy-`error` records
removed (an empty-string `error` is falsy in JavaScript and is treated as no
error). -/
theorem claim_C7_error_exclusion_amended (prs : List PRDetail)
    (a : List AuthorSummaryRow) (r : List ReviewerSummaryRow) :
    calculateReviewerSummary prs =
        calculateReviewerSummary (prs.filter (fun p => !jsTruthyStr p.error)) ∧
      calculateAuthorSummary prs =
        calculateAuthorSummary (prs.filter (fun p => !jsTruthyStr p.error)) ∧
      calculateTeamSummary a r prs =
        calculateTeamSummary a r (prs.filter (fun p => !jsTruthyStr p.error)) := by
  refine ⟨?_, ?_, ?_⟩
  · unfold calculateReviewerSummary reviewerStatsOf
    rw [filter_error_idem]
  · unfold calculateAuthorSummary
    rw [filter_error_idem]
  · unfold calculateTeamSummary
    rw [filter_error_idem]

/-- The collector team summary's median field, spelled out. -/
theorem medianTeamCollector (a : List AuthorSummaryRow) (r : List ReviewerSummaryRow)
    (prs : List PRDetail) :
    (calculateTeamSummary a r prs).reviewed.medianResponseTime =
      (medianQ ((teamResponseTimesRaw (prs.filter (fun p => !jsTruthyStr p.error))).filter
        (fun t => 0 < t))).map round2 := rfl

/-- The dashboard fallback's median field, spelled out. -/
theorem medianTeamFallback (r : List ReviewerSummaryRow) (a : List AuthorSummaryRow)
    (prs : List PRDetail) :
    (computeTeamSummaryFallback ⟨r, a, prs⟩).reviewed.medianResponseTime =
      (medianQ ((teamResponseTimesRaw (prs.filter (fun p => !jsTruthyStr p.error))).filter
        (fun h => 0 ≤ h))).map round2 := rfl

/-- Concrete counterexample batch for C9: one PR whose first response
arrives at the creation instant, so its working-hours response time is 0. -/
def c9pr : PRDetail := { c6prA with reviews := [], firstResponseAt := some 0 }

/-- C9 counterexample: on `[c9pr]` the collector's `calculateTeamSummary`
filters response times with `t > 0` and reports `medianResponseTime = null`,
while the dashboard's `computeTeamSummaryFallback` filters with `h >= 0` and
reports `0.00` — the two team summaries differ. -/
theorem claim_C9_team_summary_counterexample :
    (calculateTeamSummary [] [] [c9pr]).reviewed.medianResponseTime = none ∧
      (computeTeamSummaryFallback ⟨[], [], [c9pr]⟩).reviewed.medianResponseTime = some 0 ∧
      calculateTeamSummary [] [] [c9pr] ≠ computeTeamSummaryFallback ⟨[], [], [c9pr]⟩ := by
  have h1 : (calculateTeamSummary [] [] [c9pr]).reviewed.medianResponseTime = none := by
    rw [medianTeamCollector]
    have hlist : (teamResponseTimesRaw ([c9pr].filter (fun p => !jsTruthyStr p.error))).filter
        (fun t => (0 : ℚ) < t) = [] := by decide
    rw [hlist]
    rfl
  have h2 : (computeTeamSummaryFallback ⟨[], [], [c9pr]⟩).reviewed.medianResponseTime =
      some 0 := by
    rw [medianTeamFallback]
    have hlist : (teamResponseTimesRaw ([c9pr].filter (fun p => !jsTruthyStr p.error))).filter
        (fun h => (0 : ℚ) ≤ h) = [0] := by decide
    rw [hlist]
    have hm : medianQ [0] = some 0 := by decide
    rw [hm]
    show some (round2 0) = some 0
    unfold round2
    norm_num
  exact ⟨h1, h2, fun h => by rw [h, h2] at h1; exact Option.noConfusion h1⟩

/-- C9 amended: the two team-summary implementations agree on the whole
`authored` half and on every `reviewed` field except `medianResponseTime`
(the collector drops zero working-hour response times, the dashboard keeps
them); when no valid PR has a zero working-hours first response, the two
summaries are identical. -/
theorem claim_C9_team_summary_equivalence_amended (a : List AuthorSummaryRow)
    (r : List ReviewerSummaryRow) (prs : List PRDetail) :
    (calculateTeamSummary a r prs).authored =
        (computeTeamSummaryFallback ⟨r, a, prs⟩).authored ∧
      (calculateTeamSummary a r prs).reviewed.totalReviews =
        (computeTeamSummaryFallback ⟨r, a, prs⟩).reviewed.totalReviews ∧
      (calculateTeamSummary a r prs).reviewed.totalReviewers =
        (computeTeamSummaryFallback ⟨r, a, prs⟩).reviewed.totalReviewers ∧
      (calculateTeamSummary a r prs).reviewed.avgPrSizeReviewed =
        (computeTeamSummaryFallback ⟨r, a, prs⟩).reviewed.avgPrSizeReviewed ∧
      (calculateTeamSummary a r prs).reviewed.avgProdLinesReviewed =
        (computeTeamSummaryFallback ⟨r, a, prs⟩).reviewed.avgProdLinesReviewed ∧
      (calculateTeamSummary a r prs).reviewed.avgTestLinesReviewed =
        (computeTeamSummaryFallback ⟨r, a, prs⟩).reviewed.avgTestLinesReviewed ∧
      (calculateTeamSummary a r prs).reviewed.overallNoCommentPct =
        (computeTeamSummaryFallback ⟨r, a, prs⟩).reviewed.overallNoCommentPct ∧
      (calculateTeamSummary a r prs).reviewed.avgInlineComments =
        (computeTeamSummaryFallback ⟨r, a, prs⟩).reviewed.avgInlineComments ∧
      (calculateTeamSummary a r prs).reviewed.avgIterationsPerPr =
        (computeTeamSummaryFallback ⟨r, a, prs⟩).reviewed.avgIterationsPerPr ∧
      ((∀ p ∈ prs.filter (fun p => !jsTruthyStr p.error), ∀ t, p.firstResponseAt = some t →
          calculateWorkingHours p.createdAt t ≠ 0) →
        calculateTeamSummary a r prs = computeTeamSummaryFallback ⟨r, a, prs⟩) := by
  refine ⟨rfl, rfl, rfl, rfl, rfl, rfl, rfl, rfl, rfl, ?_⟩
  intro hnz
  have hfe : (teamResponseTimesRaw (prs.filter (fun p => !jsTruthyStr p.error))).filter
      (fun t => (0 : ℚ) < t) =
      (teamResponseTimesRaw (prs.filter (fun p => !jsTruthyStr p.error))).filter
        (fun h => (0 : ℚ) ≤ h) := by
    apply List.filter_congr
    intro x hx
    unfold teamResponseTimesRaw at hx
    rw [List.mem_map] at hx
    obtain ⟨p, hp, hxe⟩ := hx
    rw [List.mem_filter] at hp
    obtain ⟨t, ht⟩ := Option.isSome_iff_exists.mp (by simpa using hp.2)
    have hx0 : (0 : ℚ) ≤ x := by
      rw [← hxe]
      exact calculateWorkingHours_nonneg _ _
    have hxne : x ≠ 0 := by
      rw [← hxe, ht]
      simpa using hnz p hp.1 t ht
    have hlt : (0 : ℚ) < x := lt_of_le_of_ne hx0 (Ne.symm hxne)
    simp [hlt, hx0]
  have hmed : (calculateTeamSummary a r prs).reviewed.medianResponseTime =
      (computeTeamSummaryFallback ⟨r, a, prs⟩).reviewed.medianResponseTime := by
    rw [medianTeamCollector, medianTeamFallback, hfe]
  exact TeamSummary.ext rfl (TeamReviewed.ext rfl rfl rfl rfl rfl hmed rfl rfl rfl)

/-- Witness for C9's amended theorem at the empty batch, where the
no-zero-response hypothesis holds vacuously. -/
theorem claim_C9_team_summary_equivalence_amended_witness :
    calculateTeamSummary [] [] [] = computeTeamSummaryFallback ⟨[], [], []⟩ :=
  (claim_C9_team_summary_equivalence_amended [] [] []).2.2.2.2.2.2.2.2.2 (by simp)

/-- The close-time sub-score ternary of `calculateQualityScore`: clamped
linear from 2h (100) to 8h (0), defaulting to 50 when no data is present. -/
def closeTimeScoreOf : Option ℚ → ℚ
  | some h => max 0 (min 100 (100 * (1 - (h - 2) / 6)))
  | none => 50

/-- Embedding of the dashboard's `calculateQualityScore`: four clamped
linear sub-scores combined with weights 0.35 / 0.30 / 0.20 / 0.15 and
rounded (`Math.round` agrees with `round`).  The `teamAvg` parameter exists
for interface compatibility and is unused, as in the source. -/
def calculateQualityScore (avgSrcSize avgSrcFiles avgIterations : ℚ)
    (avgWorkingHoursToClose : Option ℚ) (churnPct : ℚ) (teamAvg : TeamAuthored) : Int :=
  let linesScore := max 0 (min 100 (100 * (1 - (avgSrcSize - 100) / 300)))
  let filesScore := max 0 (min 100 (100 * (1 - (avgSrcFiles - 4) / 6)))
  let sizeScore := (linesScore + filesScore) / 2
  let closeTimeScore := closeTimeScoreOf avgWorkingHoursToClose
  let iterationScore := max 0 (min 100 (100 * (1 - max 0 (avgIterations - 1) / 3)))
  let churnScore := max 0 (100 * (1 - churnPct / 50))
  round (sizeScore * (0.35 : ℚ) + closeTimeScore * (0.30 : ℚ) +
    iterationScore * (0.20 : ℚ) + churnScore * (0.15 : ℚ))

theorem round_le_round_q {x y : ℚ} (h : x ≤ y) : round x ≤ round y := by
  rw [round_eq, round_eq]
  exact Int.floor_le_floor (by linarith)

theorem clamp_bounds (x : ℚ) : 0 ≤ max 0 (min 100 x) ∧ max 0 (min 100 x) ≤ 100 :=
  ⟨le_max_left 0 _, max_le (by norm_num) (min_le_left 100 x)⟩

/-- C8: with non-negative size, files, iteration and churn averages, and a
close-time average that is null or non-negative, the quality score is an
integer in `[0, 100]` equal to the rounded weighted sum of the four
sub-scores, with the close-time sub-score defaulting to 50 on null. -/
theorem claim_C8_quality_score_bounds (s f i c : ℚ) (w : Option ℚ) (teamAvg : TeamAuthored)
    (hs : 0 ≤ s) (hf : 0 ≤ f) (hi : 0 ≤ i) (hc : 0 ≤ c)
    (hw : ∀ h, w = some h → 0 ≤ h) :
    0 ≤ calculateQualityScore s f i w c teamAvg ∧
      calculateQualityScore s f i w c teamAvg ≤ 100 ∧
      calculateQualityScore s f i w c teamAvg =
        round ((max 0 (min 100 (100 * (1 - (s - 100) / 300))) +
              max 0 (min 100 (100 * (1 - (f - 4) / 6)))) / 2 * (0.35 : ℚ) +
          closeTimeScoreOf w * (0.30 : ℚ) +
          max 0 (min 100 (100 * (1 - max 0 (i - 1) / 3))) * (0.20 : ℚ) +
          max 0 (100 * (1 - c / 50)) * (0.15 : ℚ)) ∧
      closeTimeScoreOf none = 50 := by
  have hct0 : 0 ≤ closeTimeScoreOf w := by
    cases w with
    | none => norm_num [closeTimeScoreOf]
    | some h => exact (clamp_bounds _).1
  have hct1 : closeTimeScoreOf w ≤ 100 := by
    cases w with
    | none => norm_num [closeTimeScoreOf]
    | some h => exact (clamp_bounds _).2
  obtain ⟨hl0, hl1⟩ := clamp_bounds (100 * (1 - (s - 100) / 300))
  obtain ⟨hf0, hf1⟩ := clamp_bounds (100 * (1 - (f - 4) / 6))
  obtain ⟨hi0, hi1⟩ := clamp_bounds (100 * (1 - max 0 (i - 1) / 3))
  have hch0 : 0 ≤ max 0 (100 * (1 - c / 50)) := le_max_left 0 _
  have hch1 : max 0 (100 * (1 - c / 50)) ≤ 100 := by
    apply max_le (by norm_num)
    have : 0 ≤ c / 50 := by positivity
    linarith
  have key : ∀ ct : ℚ, 0 ≤ ct → ct ≤ 100 →
      0 ≤ (max 0 (min 100 (100 * (1 - (s - 100) / 300))) +
            max 0 (min 100 (100 * (1 - (f - 4) / 6)))) / 2 * (0.35 : ℚ) +
          ct * (0.30 : ℚ) +
          max 0 (min 100 (100 * (1 - max 0 (i - 1) / 3))) * (0.20 : ℚ) +
          max 0 (100 * (1 - c / 50)) * (0.15 : ℚ) ∧
        (max 0 (min 100 (100 * (1 - (s - 100) / 300))) +
            max 0 (min 100 (100 * (1 - (f - 4) / 6)))) / 2 * (0.35 : ℚ) +
          ct * (0.30 : ℚ) +
          max 0 (min 100 (100 * (1 - max 0 (i - 1) / 3))) * (0.20 : ℚ) +
          max 0 (100 * (1 - c / 50)) * (0.15 : ℚ) ≤ 100 := by
    intro ct h0 h1
    constructor <;> nlinarith
  have hsum0 := (key _ hct0 hct1).1
  have hsum1 := (key _ hct0 hct1).2
  refine ⟨?_, ?_, rfl, rfl⟩
  · have h0 : (0 : Int) = round (0 : ℚ) := by rw [round_zero]
    rw [h0]
    exact round_le_round_q hsum0
  · have h100 : (100 : Int) = round ((100 : ℚ)) := by
      rw [show ((100 : ℚ)) = (((100 : Int) : ℚ)) from by norm_num, round_intCast]
    rw [h100]
    exact round_le_round_q hsum1

/-- Witness for C8 at all-zero averages, a null close time, and a zero team
baseline. -/
theorem claim_C8_quality_score_bounds_witness :
    0 ≤ calculateQualityScore 0 0 0 none 0 ⟨0, 0, 0, 0, 0, none, 0, 0, 0, 0⟩ ∧
      calculateQualityScore 0 0 0 none 0 ⟨0, 0, 0, 0, 0, none, 0, 0, 0, 0⟩ ≤ 100 ∧
      calculateQualityScore 0 0 0 none 0 ⟨0, 0, 0, 0, 0, none, 0, 0, 0, 0⟩ =
        round ((max 0 (min 100 (100 * (1 - ((0 : ℚ) - 100) / 300))) +
              max 0 (min 100 (100 * (1 - ((0 : ℚ) - 4) / 6)))) / 2 * (0.35 : ℚ) +
          closeTimeScoreOf none * (0.30 : ℚ) +
          max 0 (min 100 (100 * (1 - max 0 ((0 : ℚ) - 1) / 3))) * (0.20 : ℚ) +
          max 0 (100 * (1 - (0 : ℚ) / 50)) * (0.15 : ℚ)) ∧
      closeTimeScoreOf none = 50 :=
  claim_C8_quality_score_bounds 0 0 0 0 none ⟨0, 0, 0, 0, 0, none, 0, 0, 0, 0⟩
    le_rfl le_rfl le_rfl le_rfl (fun h hh => Option.noConfusion hh)
